import Mathlib

/-!
Verification of the confectionery loyalty system's core: the points ledger,
the earning route (POST /transactions), the redemption route
(POST /loyalty/redeem), bonus awarding, tier upgrading
(services/loyalty.ts) and the commission arithmetic of the revenue
distribution contract wrappers.

The embedding follows the TypeScript sources: amounts arriving in requests
are rationals (JS numbers), ledger counters are integers (Prisma BigInt),
fallible handlers return Except values, and an aborted handler (a thrown
AppError) leaves the store untouched, matching the fact that every write in
the sources happens inside a single prisma transaction placed after all
validation.
-/

namespace Loyalty

/-- Partner tier, enum PartnerTier in the Prisma schema. -/
inductive Tier
  | bronze
  | silver
  | gold
deriving DecidableEq, Repr

/-- Partner status, enum PartnerStatus in the Prisma schema. -/
inductive PartnerStatus
  | pending
  | active
  | suspended
  | banned
deriving DecidableEq, Repr

/-- Transaction type, enum TransactionType in the Prisma schema. -/
inductive TxKind
  | purchase
  | bonus
  | referral
  | promotion
deriving DecidableEq, Repr

/-- Claim status, enum ClaimStatus in the Prisma schema. -/
inductive ClaimStatus
  | pending
  | approved
  | rejected
  | fulfilled
deriving DecidableEq, Repr

/-- The AppError codes thrown by the routes and middleware involved in the
earning and redemption flows. -/
inductive Err
  | unauthorized
  | forbidden
  | accountInvalid
  | notFound
  | accountNotActive
  | validationError
  | internalError
  | rewardNotFound
  | rewardInactive
  | rewardOutOfStock
  | pointsNotFound
  | insufficientPoints
deriving DecidableEq, Repr

/-- One LoyaltyPoints row: balance and lifetime counters (Prisma BigInt). -/
structure LoyaltyPoints where
  balance : ℤ
  lifetimeEarned : ℤ
  lifetimeRedeemed : ℤ
deriving DecidableEq, Repr

/-- The LoyaltyPoints row created alongside partner registration. -/
def LoyaltyPoints.init : LoyaltyPoints :=
  { balance := 0, lifetimeEarned := 0, lifetimeRedeemed := 0 }

/-- One Transaction row as the earning flow creates it (`amount` is stored
in the smallest currency unit, `pointsEarned` as computed at creation). -/
structure Transaction where
  amount : ℤ
  pointsEarned : ℤ
  kind : TxKind
deriving DecidableEq, Repr

/-- The fields of a Reward row that the redemption route reads and writes. -/
structure Reward where
  pointsRequired : ℕ
  isActive : Bool
  available : ℤ
  totalClaimed : ℤ
deriving DecidableEq, Repr

/-- One ClaimedReward row as the redemption route creates it. -/
structure ClaimedReward where
  pointsSpent : ℕ
  status : ClaimStatus
deriving DecidableEq, Repr

/-- The store as seen by one partner's requests: the partner row's tier and
status, the partner's optional LoyaltyPoints row, the reward row named by
the current redemption request (none when `findUnique` misses), the
ClaimedReward rows and the Transaction rows. -/
structure SysState where
  tier : Tier
  status : PartnerStatus
  points : Option LoyaltyPoints
  reward : Option Reward
  claims : List ClaimedReward
  txs : List Transaction
deriving DecidableEq, Repr

/-- TIER_MULTIPLIERS of routes/transactions.ts (also getTierMultiplier of
services/loyalty.ts): BRONZE 1.0, SILVER 1.5, GOLD 2.0. -/
def TIER_MULTIPLIERS : Tier → ℚ
  | .bronze => 1
  | .silver => 3 / 2
  | .gold => 2

/-- calculatePoints of services/loyalty.ts: base points are
`Math.floor(amount)` (1 KZT = 1 point), final points are
`Math.floor(basePoints * multiplier)`. -/
def calculatePoints (amount : ℚ) (multiplier : ℚ) : ℤ :=
  let basePoints : ℤ := ⌊amount⌋
  let finalPoints : ℤ := ⌊(basePoints : ℚ) * multiplier⌋
  finalPoints

/-- JavaScript Math.round: round half toward positive infinity. -/
def jsRound (x : ℚ) : ℤ := ⌊x + 1 / 2⌋

/-- The POST /transactions handler of routes/transactions.ts after
authentication: zod rejects a non-positive amount, a non-ACTIVE partner is
rejected with ACCOUNT_NOT_ACTIVE, then points are computed from the tier
multiplier and one prisma transaction creates the Transaction row (amount
stored as `BigInt(Math.round(amount * 100))`) and increments balance and
lifetimeEarned. A missing LoyaltyPoints row makes the prisma update throw,
surfacing as an internal error with nothing written. -/
def recordTransaction (amount : ℚ) (kind : TxKind) (s : SysState) :
    Except Err (SysState × Transaction) :=
  if amount ≤ 0 then .error .validationError
  else if s.status ≠ .active then .error .accountNotActive
  else
    let multiplier := TIER_MULTIPLIERS s.tier
    let pointsEarned := calculatePoints amount multiplier
    match s.points with
    | none => .error .internalError
    | some lp =>
      let tx : Transaction :=
        { amount := jsRound (amount * 100), pointsEarned := pointsEarned, kind := kind }
      let lp' : LoyaltyPoints :=
        { lp with
            balance := lp.balance + pointsEarned
            lifetimeEarned := lp.lifetimeEarned + pointsEarned }
      .ok ({ s with points := some lp', txs := s.txs ++ [tx] }, tx)

/-- The POST /loyalty/redeem handler of routes/loyalty.ts after
authentication, with its checks in source order: missing reward →
REWARD_NOT_FOUND; `!reward.isActive` → REWARD_INACTIVE;
`reward.available <= 0` → REWARD_OUT_OF_STOCK; missing LoyaltyPoints row →
POINTS_NOT_FOUND; `balance < pointsRequired` → INSUFFICIENT_POINTS. On
success one prisma transaction debits the balance, credits
lifetimeRedeemed, creates the PENDING claim and updates the reward row. -/
def redeem (s : SysState) : Except Err (SysState × ClaimedReward) :=
  match s.reward with
  | none => .error .rewardNotFound
  | some reward =>
    if reward.isActive = false then .error .rewardInactive
    else if reward.available ≤ 0 then .error .rewardOutOfStock
    else
      match s.points with
      | none => .error .pointsNotFound
      | some lp =>
        if lp.balance < (reward.pointsRequired : ℤ) then .error .insufficientPoints
        else
          let lp' : LoyaltyPoints :=
            { lp with
                balance := lp.balance - (reward.pointsRequired : ℤ)
                lifetimeRedeemed := lp.lifetimeRedeemed + (reward.pointsRequired : ℤ) }
          let claim : ClaimedReward :=
            { pointsSpent := reward.pointsRequired, status := .pending }
          let reward' : Reward :=
            { reward with
                available := reward.available - 1
                totalClaimed := reward.totalClaimed + 1 }
          .ok ({ s with points := some lp', reward := some reward',
                        claims := s.claims ++ [claim] }, claim)

/-- awardBonusPoints of services/loyalty.ts: one prisma transaction creates
a BONUS Transaction row with amount 0 and increments balance and
lifetimeEarned by the awarded points (callers pass non-negative counts such
as REFERRAL_BONUS = 500). A missing LoyaltyPoints row makes the update
throw and nothing is written. -/
def awardBonusPoints (points : ℕ) (s : SysState) : Except Err SysState :=
  match s.points with
  | none => .error .internalError
  | some lp =>
    let tx : Transaction := { amount := 0, pointsEarned := (points : ℤ), kind := .bonus }
    let lp' : LoyaltyPoints :=
      { lp with
          balance := lp.balance + (points : ℤ)
          lifetimeEarned := lp.lifetimeEarned + (points : ℤ) }
    .ok { s with points := some lp', txs := s.txs ++ [tx] }

/-- checkTierUpgrade of services/loyalty.ts: SILVER_THRESHOLD 10000,
GOLD_THRESHOLD 50000; returns false when the LoyaltyPoints row is missing;
upgrades to GOLD when `lifetimeEarned >= 50000` and the tier is not GOLD,
else to SILVER when `lifetimeEarned >= 10000` and the tier is BRONZE; the
returned boolean reports whether a tier was written. -/
def checkTierUpgrade (s : SysState) : SysState × Bool :=
  match s.points with
  | none => (s, false)
  | some lp =>
    let newTier : Option Tier :=
      if 50000 ≤ lp.lifetimeEarned ∧ s.tier ≠ .gold then some .gold
      else if 10000 ≤ lp.lifetimeEarned ∧ s.tier = .bronze then some .silver
      else none
    match newTier with
    | some t => ({ s with tier := t }, true)
    | none => (s, false)

/-- The authenticate middleware's partner branch (middleware/auth.ts): a
missing partner row or a BANNED partner is rejected with ACCOUNT_INVALID;
any other status passes through. -/
def authenticate (p : Option SysState) : Except Err SysState :=
  match p with
  | none => .error .accountInvalid
  | some s => if s.status = .banned then .error .accountInvalid else .ok s

/-- Full earning endpoint: authenticate then the POST /transactions
handler. -/
def earnEndpoint (amount : ℚ) (kind : TxKind) (p : Option SysState) :
    Except Err (SysState × Transaction) := do
  let s ← authenticate p
  recordTransaction amount kind s

/-- Full redemption endpoint: authenticate then the POST /loyalty/redeem
handler. -/
def redeemEndpoint (p : Option SysState) : Except Err (SysState × ClaimedReward) := do
  let s ← authenticate p
  redeem s

/-- One core operation against a partner's slice of the store. -/
inductive Op
  | earn (amount : ℚ) (kind : TxKind)
  | redeemOp
  | bonus (points : ℕ)
  | tierCheck
deriving DecidableEq, Repr

/-- Apply one operation; a rejected request leaves the store unchanged
(each handler validates before its single prisma transaction). -/
def applyOp (s : SysState) (op : Op) : SysState :=
  match op with
  | .earn amount kind =>
    match recordTransaction amount kind s with
    | .ok (s', _) => s'
    | .error _ => s
  | .redeemOp =>
    match redeem s with
    | .ok (s', _) => s'
    | .error _ => s
  | .bonus points =>
    match awardBonusPoints points s with
    | .ok s' => s'
    | .error _ => s
  | .tierCheck => (checkTierUpgrade s).1

/-- Run a sequence of core operations. -/
def runOps (ops : List Op) (s : SysState) : SysState :=
  ops.foldl applyOp s

/-- Numeric height of a tier in the upgrade ladder. -/
def Tier.rank : Tier → ℕ
  | .bronze => 0
  | .silver => 1
  | .gold => 2

/-- The ledger invariant of one LoyaltyPoints row. -/
def LedgerInv (lp : LoyaltyPoints) : Prop :=
  lp.balance = lp.lifetimeEarned - lp.lifetimeRedeemed ∧
  0 ≤ lp.balance ∧ 0 ≤ lp.lifetimeEarned ∧ 0 ≤ lp.lifetimeRedeemed

instance : DecidablePred LedgerInv := fun lp => by
  unfold LedgerInv; infer_instance

/-- The ledger invariant of a partner's state: its LoyaltyPoints row, when
present, satisfies the ledger invariant. -/
def StateInv (s : SysState) : Prop :=
  match s.points with
  | none => True
  | some lp => LedgerInv lp

instance : DecidablePred StateInv := fun s => by
  unfold StateInv
  match s.points with
  | none => exact inferInstance
  | some lp => exact inferInstance

/-- The error of a redemption attempt, none on success. -/
def redeemErr (s : SysState) : Option Err :=
  match redeem s with
  | .error e => some e
  | .ok _ => none

/-- The store after a redemption attempt: the updated store on success, the
unchanged store when the handler threw before its prisma transaction. -/
def redeemTotal (s : SysState) : SysState :=
  match redeem s with
  | .ok (s', _) => s'
  | .error _ => s

/-- The spec's multiplier table (section 4.3), for comparison with
TIER_MULTIPLIERS. -/
def specMultiplier : Tier → ℚ
  | .bronze => 1
  | .silver => 3 / 2
  | .gold => 2

/-- The spec's two-step points formula (section 4.3):
floor(floor(amount) * multiplier). -/
def specComputePoints (amount : ℚ) (t : Tier) : ℤ :=
  ⌊(⌊amount⌋ : ℚ) * specMultiplier t⌋

/-- CommissionRates of the RevenueDistribution wrapper, in basis points:
Bronze 300, Silver 500, Gold 700. -/
def CommissionRates : Tier → ℕ
  | .bronze => 300
  | .silver => 500
  | .gold => 700

/-- The platform fee rate of the RevenueDistribution wrapper, in basis
points: 100 (a fixed 1%). -/
def platformRateBp : ℕ := 100

/-- Modelled from the spec: the FunC body behind the RevenueDistribution
wrapper's calculate_commission_preview get-method is not among the source
files (only the TypeScript wrapper and its CommissionRates constants are),
so the arithmetic follows section 4.5 of the spec: truncating integer
division in basis points, `commission = amount * rate[tier] / 10000` and
`platformFee = amount * 100 / 10000`, with the rates taken from the
wrapper's CommissionRates. -/
def calculateCommissionPreview (amount : ℕ) (t : Tier) : ℕ × ℕ :=
  (amount * CommissionRates t / 10000, amount * platformRateBp / 10000)

/-! Concrete states used to evaluate the operations at specific inputs. -/

/-- A Bronze, ACTIVE partner holding 100 points, facing an active reward
costing 50 points with one unit in stock. -/
def sampleState : SysState :=
  { tier := .bronze, status := .active,
    points := some { balance := 100, lifetimeEarned := 100, lifetimeRedeemed := 0 },
    reward := some { pointsRequired := 50, isActive := true, available := 1, totalClaimed := 0 },
    claims := [], txs := [] }

/-- The same partner SUSPENDED. -/
def suspendedState : SysState := { sampleState with status := .suspended }

/-- The same partner BANNED. -/
def bannedState : SysState := { sampleState with status := .banned }

/-- A Bronze, ACTIVE partner one point short of the Silver threshold, as in
the spec's Scenario B. -/
def nearSilverState : SysState :=
  { tier := .bronze, status := .active,
    points := some { balance := 9999, lifetimeEarned := 9999, lifetimeRedeemed := 0 },
    reward := none, claims := [], txs := [] }

/-- A Bronze partner whose lifetime earnings already clear the Gold
threshold. -/
def pastGoldState : SysState :=
  { tier := .bronze, status := .active,
    points := some { balance := 60000, lifetimeEarned := 60000, lifetimeRedeemed := 0 },
    reward := none, claims := [], txs := [] }

/-- Scenario C's partner: balance 100, facing an active 250-point reward. -/
def scenarioCState : SysState :=
  { tier := .bronze, status := .active,
    points := some { balance := 100, lifetimeEarned := 100, lifetimeRedeemed := 0 },
    reward := some { pointsRequired := 250, isActive := true, available := 5, totalClaimed := 0 },
    claims := [], txs := [] }

/-! Helper lemmas shared by the claim theorems. -/

/-- Every tier multiplier is non-negative. -/
lemma tier_multiplier_nonneg (t : Tier) : 0 ≤ TIER_MULTIPLIERS t := by
  cases t <;> norm_num [TIER_MULTIPLIERS]

/-- A positive request amount and a non-negative multiplier earn a
non-negative number of points. -/
lemma calculatePoints_nonneg (a m : ℚ) (ha : 0 < a) (hm : 0 ≤ m) :
    0 ≤ calculatePoints a m := by
  unfold calculatePoints
  have h1 : (0 : ℤ) ≤ ⌊a⌋ := Int.floor_nonneg.mpr ha.le
  have h2 : (0 : ℚ) ≤ (⌊a⌋ : ℚ) * m := mul_nonneg (by exact_mod_cast h1) hm
  simpa using Int.floor_nonneg.mpr h2

/-- A successful earning request does not write the tier field. -/
lemma recordTransaction_tier_eq {a : ℚ} {k : TxKind} {s s' : SysState}
    {tx : Transaction} (h : recordTransaction a k s = .ok (s', tx)) :
    s'.tier = s.tier := by
  unfold recordTransaction at h
  split at h
  · cases h
  · split at h
    · cases h
    · split at h
      · cases h
      · cases h; rfl

/-- A successful redemption does not write the tier field. -/
lemma redeem_tier_eq {s s' : SysState} {c : ClaimedReward}
    (h : redeem s = .ok (s', c)) : s'.tier = s.tier := by
  unfold redeem at h
  split at h
  · cases h
  · split at h
    · cases h
    · split at h
      · cases h
      · split at h
        · cases h
        · split at h
          · cases h
          · cases h; rfl

/-- A successful bonus award does not write the tier field. -/
lemma awardBonusPoints_tier_eq {p : ℕ} {s s' : SysState}
    (h : awardBonusPoints p s = .ok s') : s'.tier = s.tier := by
  unfold awardBonusPoints at h
  split at h
  · cases h
  · cases h; rfl

/-- Every tier's rank is at most Gold's. -/
lemma rank_le_gold (t : Tier) : t.rank ≤ Tier.rank Tier.gold := by
  cases t <;> simp [Tier.rank]

/-- The tier-upgrade check never lowers the tier's rank. -/
lemma checkTierUpgrade_rank_mono (s : SysState) :
    s.tier.rank ≤ (checkTierUpgrade s).1.tier.rank := by
  unfold checkTierUpgrade
  cases hp : s.points with
  | none => exact le_refl _
  | some lp =>
    dsimp only
    by_cases h1 : 50000 ≤ lp.lifetimeEarned ∧ s.tier ≠ Tier.gold
    · rw [if_pos h1]
      exact rank_le_gold s.tier
    · rw [if_neg h1]
      by_cases h2 : 10000 ≤ lp.lifetimeEarned ∧ s.tier = Tier.bronze
      · rw [if_pos h2, h2.2]
        show Tier.bronze.rank ≤ Tier.silver.rank
        decide
      · rw [if_neg h2]

/-- No single core operation lowers the tier's rank. -/
lemma applyOp_rank_mono (s : SysState) (op : Op) :
    s.tier.rank ≤ (applyOp s op).tier.rank := by
  cases op with
  | earn a k =>
    simp only [applyOp]
    split
    · rename_i s' tx h
      rw [recordTransaction_tier_eq h]
    · exact le_refl _
  | redeemOp =>
    simp only [applyOp]
    split
    · rename_i s' c h
      rw [redeem_tier_eq h]
    · exact le_refl _
  | bonus p =>
    simp only [applyOp]
    split
    · rename_i s' h
      rw [awardBonusPoints_tier_eq h]
    · exact le_refl _
  | tierCheck => exact checkTierUpgrade_rank_mono s

/-- No sequence of core operations lowers the tier's rank. -/
lemma runOps_rank_mono (ops : List Op) (s : SysState) :
    s.tier.rank ≤ (runOps ops s).tier.rank := by
  induction ops generalizing s with
  | nil => exact le_refl _
  | cons op rest ih =>
    exact le_trans (applyOp_rank_mono s op) (ih (applyOp s op))

/-- Only Gold has rank two. -/
lemma rank_two_eq_gold (t : Tier) (h : 2 ≤ t.rank) : t = Tier.gold := by
  cases t <;> simp [Tier.rank] at h ⊢

/-! The claims. -/

/-- Claim C6: for every transaction amount and tier, the points earned
equal floor(floor(amount) * multiplier[tier]) with two separate truncation
steps, where the multipliers are Bronze 1.0, Silver 1.5, Gold 2.0; a Bronze
amount of 1000 yields exactly 1000 points, and at amount 19/10 on Silver
the two-step truncation gives 1 where a single combined rounding would
give 2. -/
theorem c6_points_two_step_truncation (a : ℚ) (t : Tier) :
    calculatePoints a (TIER_MULTIPLIERS t) = specComputePoints a t ∧
    calculatePoints 1000 (TIER_MULTIPLIERS Tier.bronze) = 1000 ∧
    calculatePoints (19 / 10) (TIER_MULTIPLIERS Tier.silver) = 1 ∧
    ⌊(19 / 10 : ℚ) * TIER_MULTIPLIERS Tier.silver⌋ = 2 := by
  refine ⟨?_, ?_, ?_, ?_⟩
  · cases t <;> rfl
  · norm_num [calculatePoints, TIER_MULTIPLIERS]
  · norm_num [calculatePoints, TIER_MULTIPLIERS]
  · norm_num [TIER_MULTIPLIERS]

/-- Claim C9: for every transaction amount and tier, the commission equals
amount * rate[tier] / 10000 and the platform fee amount * 100 / 10000,
both with truncating integer division (natural division agrees with the
rational floor), where the rates are Bronze 300, Silver 500, Gold 700
basis points; a Gold amount of 100000 yields commission 7000 and platform
fee 1000. -/
theorem c9_commission_basis_points (amount : ℕ) (t : Tier) :
    (calculateCommissionPreview amount t).1 =
      ⌊((amount * CommissionRates t : ℕ) : ℚ) / 10000⌋₊ ∧
    (calculateCommissionPreview amount t).2 =
      ⌊((amount * 100 : ℕ) : ℚ) / 10000⌋₊ ∧
    calculateCommissionPreview 100000 Tier.gold = (7000, 1000) ∧
    CommissionRates Tier.bronze = 300 ∧ CommissionRates Tier.silver = 500 ∧
    CommissionRates Tier.gold = 700 := by
  refine ⟨?_, ?_, rfl, rfl, rfl, rfl⟩
  · rw [Nat.floor_div_ofNat, Nat.floor_natCast]
    rfl
  · rw [Nat.floor_div_ofNat, Nat.floor_natCast]
    rfl

/-- Claim C7: the tier-upgrade evaluation yields Gold whenever
lifetimeEarned is at least 50000 and the tier is not already Gold
(directly from Bronze as well), otherwise Silver whenever lifetimeEarned
is at least 10000 and the tier is Bronze, otherwise no change. -/
theorem c7_evaluate_upgrade (s : SysState) (lp : LoyaltyPoints)
    (h : s.points = some lp) :
    (50000 ≤ lp.lifetimeEarned ∧ s.tier ≠ Tier.gold →
      (checkTierUpgrade s).1.tier = Tier.gold ∧ (checkTierUpgrade s).2 = true) ∧
    (¬(50000 ≤ lp.lifetimeEarned ∧ s.tier ≠ Tier.gold) →
      10000 ≤ lp.lifetimeEarned ∧ s.tier = Tier.bronze →
      (checkTierUpgrade s).1.tier = Tier.silver ∧ (checkTierUpgrade s).2 = true) ∧
    (¬(50000 ≤ lp.lifetimeEarned ∧ s.tier ≠ Tier.gold) →
      ¬(10000 ≤ lp.lifetimeEarned ∧ s.tier = Tier.bronze) →
      (checkTierUpgrade s).1 = s ∧ (checkTierUpgrade s).2 = false) := by
  refine ⟨?_, ?_, ?_⟩
  · intro hc
    simp [checkTierUpgrade, h, if_pos hc]
  · intro hnc hc
    simp [checkTierUpgrade, h, if_neg hnc, if_pos hc]
  · intro hnc hnc2
    simp [checkTierUpgrade, h, if_neg hnc, if_neg hnc2]

/-- Witness for C7: a Bronze partner with lifetime earnings 60000 is
upgraded straight to Gold. -/
theorem c7_evaluate_upgrade_witness :
    (checkTierUpgrade pastGoldState).1.tier = Tier.gold ∧
    (checkTierUpgrade pastGoldState).2 = true :=
  (c7_evaluate_upgrade pastGoldState
      { balance := 60000, lifetimeEarned := 60000, lifetimeRedeemed := 0 } rfl).1
    ⟨by norm_num, by decide⟩

/-- Claim C2: the redemption validations run in the exact order reward
existence, reward active, reward stock, account existence, sufficient
balance, and the error returned is that of the earliest failing check:
each error is returned exactly when its own check fails and every earlier
check passes, and the attempt succeeds exactly when all five pass. -/
theorem c2_redeem_validation_order (s : SysState) :
    (redeemErr s = some Err.rewardNotFound ↔ s.reward = none) ∧
    (redeemErr s = some Err.rewardInactive ↔
      ∃ r, s.reward = some r ∧ r.isActive = false) ∧
    (redeemErr s = some Err.rewardOutOfStock ↔
      ∃ r, s.reward = some r ∧ r.isActive = true ∧ r.available ≤ 0) ∧
    (redeemErr s = some Err.pointsNotFound ↔
      (∃ r, s.reward = some r ∧ r.isActive = true ∧ 0 < r.available) ∧
        s.points = none) ∧
    (redeemErr s = some Err.insufficientPoints ↔
      ∃ r lp, s.reward = some r ∧ r.isActive = true ∧ 0 < r.available ∧
        s.points = some lp ∧ lp.balance < (r.pointsRequired : ℤ)) ∧
    (redeemErr s = none ↔
      ∃ r lp, s.reward = some r ∧ r.isActive = true ∧ 0 < r.available ∧
        s.points = some lp ∧ (r.pointsRequired : ℤ) ≤ lp.balance) := by
  cases hr : s.reward with
  | none => simp [redeemErr, redeem, hr]
  | some r =>
    cases hp : s.points with
    | none =>
      by_cases hia : r.isActive <;> by_cases hav : r.available ≤ 0 <;>
        (simp [redeemErr, redeem, hr, hp, hia, hav, not_le, not_lt, le_of_lt];
         try omega)
    | some lp =>
      by_cases hia : r.isActive <;> by_cases hav : r.available ≤ 0 <;>
        by_cases hb : lp.balance < (r.pointsRequired : ℤ) <;>
        (simp [redeemErr, redeem, hr, hp, hia, hav, hb, not_le, not_lt, le_of_lt];
         try omega)

/-- Claim C3: every successful redemption debits exactly pointsRequired
from the balance, adds it to lifetimeRedeemed, creates a Pending claim
with pointsSpent = pointsRequired, decrements the reward's stock by one
and increments its totalClaimed by one, touching nothing else; every
failed redemption leaves the store unchanged, and in particular Scenario
C's partner (balance 100, reward requiring 250) fails with
insufficientPoints and keeps its state. -/
theorem c3_redeem_atomic_effects (s : SysState) :
    (∀ s' c, redeem s = Except.ok (s', c) →
      ∃ r lp, s.reward = some r ∧ s.points = some lp ∧
        c = { pointsSpent := r.pointsRequired, status := ClaimStatus.pending } ∧
        s'.points = some { balance := lp.balance - (r.pointsRequired : ℤ),
                           lifetimeEarned := lp.lifetimeEarned,
                           lifetimeRedeemed := lp.lifetimeRedeemed + (r.pointsRequired : ℤ) } ∧
        s'.reward = some { r with available := r.available - 1,
                                  totalClaimed := r.totalClaimed + 1 } ∧
        s'.claims = s.claims ++ [c] ∧
        s'.txs = s.txs ∧ s'.tier = s.tier ∧ s'.status = s.status) ∧
    (∀ e, redeem s = Except.error e → redeemTotal s = s) ∧
    redeem scenarioCState = Except.error Err.insufficientPoints ∧
    redeemTotal scenarioCState = scenarioCState := by
  refine ⟨?_, ?_, ?_, ?_⟩
  · intro s' c hok
    unfold redeem at hok
    split at hok
    · cases hok
    · rename_i r hr
      split at hok
      · cases hok
      · split at hok
        · cases hok
        · split at hok
          · cases hok
          · rename_i lp hp
            split at hok
            · cases hok
            · cases hok
              exact ⟨r, lp, hr, hp, rfl, rfl, rfl, rfl, rfl, rfl, rfl⟩
  · intro e he
    unfold redeemTotal
    rw [he]
  · simp +decide [redeem, scenarioCState]
  · simp +decide [redeemTotal, redeem, scenarioCState]

/-- Claim C1: starting from the initial account (all counters zero), the
earning, redemption and bonus-award operations each preserve the ledger
invariant: balance equals lifetimeEarned minus lifetimeRedeemed and all
three counters are non-negative. -/
theorem c1_ledger_invariant_preserved :
    LedgerInv LoyaltyPoints.init ∧
    (∀ (a : ℚ) (k : TxKind) (s s' : SysState) (tx : Transaction),
      StateInv s → recordTransaction a k s = Except.ok (s', tx) → StateInv s') ∧
    (∀ (s s' : SysState) (c : ClaimedReward),
      StateInv s → redeem s = Except.ok (s', c) → StateInv s') ∧
    (∀ (p : ℕ) (s s' : SysState),
      StateInv s → awardBonusPoints p s = Except.ok s' → StateInv s') := by
  refine ⟨⟨rfl, le_refl 0, le_refl 0, le_refl 0⟩, ?_, ?_, ?_⟩
  · intro a k s s' tx hinv hok
    unfold recordTransaction at hok
    split at hok
    · cases hok
    · rename_i ha
      split at hok
      · cases hok
      · split at hok
        · cases hok
        · rename_i lp hp
          cases hok
          have hpts : 0 ≤ calculatePoints a (TIER_MULTIPLIERS s.tier) :=
            calculatePoints_nonneg a (TIER_MULTIPLIERS s.tier)
              (lt_of_not_le ha) (tier_multiplier_nonneg s.tier)
          unfold StateInv at hinv
          rw [hp] at hinv
          unfold StateInv LedgerInv
          simp only []
          obtain ⟨h1, h2, h3, h4⟩ := hinv
          refine ⟨by omega, by omega, by omega, h4⟩
  · intro s s' c hinv hok
    unfold redeem at hok
    split at hok
    · cases hok
    · rename_i r hr
      split at hok
      · cases hok
      · split at hok
        · cases hok
        · split at hok
          · cases hok
          · rename_i lp hp
            split at hok
            · cases hok
            · rename_i hb
              cases hok
              unfold StateInv at hinv
              rw [hp] at hinv
              unfold StateInv LedgerInv
              simp only []
              obtain ⟨h1, h2, h3, h4⟩ := hinv
              rw [not_lt] at hb
              refine ⟨by omega, by omega, h3, by positivity⟩
  · intro p s s' hinv hok
    unfold awardBonusPoints at hok
    split at hok
    · cases hok
    · rename_i lp hp
      cases hok
      unfold StateInv at hinv
      rw [hp] at hinv
      unfold StateInv LedgerInv
      simp only []
      obtain ⟨h1, h2, h3, h4⟩ := hinv
      refine ⟨by omega, by omega, by omega, h4⟩

/-- Claim C4 fails on the code: the earning flow never invokes the tier
upgrade. A Bronze partner at lifetimeEarned 9999 who earns one more point
reaches lifetimeEarned 10000, yet the resulting state still has tier
Bronze and its next transaction still uses multiplier 1.0 — the upgrade
function exists but no caller wires it into the earning flow. -/
theorem c4_earning_flow_skips_tier_upgrade :
    ∃ s' tx, recordTransaction 1 TxKind.purchase nearSilverState = Except.ok (s', tx) ∧
      s'.points = some { balance := 10000, lifetimeEarned := 10000, lifetimeRedeemed := 0 } ∧
      s'.tier = Tier.bronze ∧
      TIER_MULTIPLIERS s'.tier = 1 ∧
      (checkTierUpgrade s').1.tier = Tier.silver := by
  refine ⟨_, _, rfl, ?_, ?_, ?_, ?_⟩ <;>
    simp +decide [recordTransaction, nearSilverState, calculatePoints,
      TIER_MULTIPLIERS, jsRound, checkTierUpgrade]

/-- Counterexample to C5: a SUSPENDED partner's redemption request is not
rejected — it passes authentication (which rejects only BANNED), the
redemption handler checks no partner status, and the account is mutated
from balance 100 to balance 50. -/
theorem c5_counterexample_suspended_redeems :
    redeemEndpoint (some suspendedState) =
      Except.ok ({ suspendedState with
        points := some { balance := 50, lifetimeEarned := 100, lifetimeRedeemed := 50 },
        reward := some { pointsRequired := 50, isActive := true, available := 0, totalClaimed := 1 },
        claims := [{ pointsSpent := 50, status := ClaimStatus.pending }] },
        { pointsSpent := 50, status := ClaimStatus.pending }) := by
  simp +decide [redeemEndpoint, authenticate, redeem, suspendedState, sampleState,
    Bind.bind, Except.bind]

/-- Claim C5 as amended: a BANNED partner is rejected by authentication
with ACCOUNT_INVALID on both the earning and the redemption endpoint; a
SUSPENDED partner is rejected only on the earning endpoint, with
ACCOUNT_NOT_ACTIVE, while its redemption passes the status gate entirely
(see the counterexample). -/
theorem c5_amended_status_gating (s : SysState) (a : ℚ) (k : TxKind) (ha : 0 < a) :
    (s.status = PartnerStatus.banned →
      earnEndpoint a k (some s) = Except.error Err.accountInvalid ∧
      redeemEndpoint (some s) = Except.error Err.accountInvalid) ∧
    (s.status = PartnerStatus.suspended →
      earnEndpoint a k (some s) = Except.error Err.accountNotActive) := by
  constructor
  · intro hb
    constructor
    · simp [earnEndpoint, authenticate, hb, Bind.bind, Except.bind]
    · simp [redeemEndpoint, authenticate, hb, Bind.bind, Except.bind]
  · intro hsus
    simp [earnEndpoint, authenticate, hsus, Bind.bind, Except.bind,
      recordTransaction, not_le.mpr ha]

/-- Witness for the amended C5 at concrete banned and suspended states. -/
theorem c5_amended_status_gating_witness :
    (earnEndpoint 10 TxKind.purchase (some bannedState) = Except.error Err.accountInvalid ∧
     redeemEndpoint (some bannedState) = Except.error Err.accountInvalid) ∧
    earnEndpoint 10 TxKind.purchase (some suspendedState) =
      Except.error Err.accountNotActive :=
  ⟨(c5_amended_status_gating bannedState 10 TxKind.purchase (by norm_num)).1 rfl,
   (c5_amended_status_gating suspendedState 10 TxKind.purchase (by norm_num)).2 rfl⟩

/-- Claim C8: the tier is monotone under every sequence of core operations
(earning, redemption, bonus award, tier evaluation); in particular a Gold
partner stays Gold. -/
theorem c8_tier_monotone (ops : List Op) (s : SysState) :
    s.tier.rank ≤ (runOps ops s).tier.rank ∧
    (s.tier = Tier.gold → (runOps ops s).tier = Tier.gold) := by
  refine ⟨runOps_rank_mono ops s, ?_⟩
  intro hg
  apply rank_two_eq_gold
  have h := runOps_rank_mono ops s
  rw [hg] at h
  exact h

/-- Claim C10: an accepted earning request of amount a stores the
transaction amount as round(a * 100) — the smallest currency unit — while
the stored pointsEarned is computed from a in whole currency units; when
the conversion is exact, the stored pointsEarned corresponds to the stored
amount divided by 100, not to the stored amount itself. -/
theorem c10_stored_units (a : ℚ) (k : TxKind) (s : SysState) (lp : LoyaltyPoints)
    (ha : 0 < a) (hst : s.status = PartnerStatus.active) (hlp : s.points = some lp) :
    ∃ s' tx, recordTransaction a k s = Except.ok (s', tx) ∧
      tx.amount = jsRound (a * 100) ∧
      tx.pointsEarned = calculatePoints a (TIER_MULTIPLIERS s.tier) ∧
      ((a * 100 : ℚ) = ((jsRound (a * 100) : ℤ) : ℚ) →
        tx.pointsEarned = calculatePoints ((tx.amount : ℚ) / 100) (TIER_MULTIPLIERS s.tier)) := by
  unfold recordTransaction
  rw [if_neg (not_le.mpr ha), hst]
  simp only [ne_eq, not_true_eq_false, if_false, hlp]
  refine ⟨_, _, rfl, rfl, rfl, ?_⟩
  intro h
  have hq : ((jsRound (a * 100) : ℤ) : ℚ) / 100 = a := by
    rw [← h]
    field_simp
  rw [hq]

/-- Witness for C10: a Bronze request of amount 1000 stores amount 100000
and pointsEarned 1000. -/
theorem c10_stored_units_witness :
    ∃ s' tx, recordTransaction 1000 TxKind.purchase sampleState = Except.ok (s', tx) ∧
      tx.amount = jsRound (1000 * 100) ∧
      tx.pointsEarned = calculatePoints 1000 (TIER_MULTIPLIERS sampleState.tier) ∧
      (((1000 : ℚ) * 100) = ((jsRound (1000 * 100) : ℤ) : ℚ) →
        tx.pointsEarned = calculatePoints ((tx.amount : ℚ) / 100)
          (TIER_MULTIPLIERS sampleState.tier)) :=
  c10_stored_units 1000 TxKind.purchase sampleState
    { balance := 100, lifetimeEarned := 100, lifetimeRedeemed := 0 }
    (by norm_num) rfl rfl

end Loyalty
